import Mathlib

/-
Verification of the btzen session / device-lifecycle layer.

Shallow embedding of the Python sources:
  * src/btzen/session.py  — Session (start, stop, create_future,
    add_connection_task, wait_connected, the done-callback that stops the
    session when a connection task errors)
  * src/btzen/sensor.py   — Sensor.set_interval, Sensor.read, Sensor._enable
  * src/btzen/fdevice.py  — read, enable/disable dispatch, write_config,
    disarm / disarm_async

External effects (D-Bus reads/writes, GATT notification arming) are
modelled by an `Action` trace emitted by each operation, and the outcome
of each external call is a parameter of the embedding (`Option Err`:
`none` = the call succeeded, `some e` = the call raised `e`).
Exceptions are the `Err` type; a Python function that can raise returns
`List Action × Option Err` (actions performed, error raised if any) or
`Except Err _`.
-/

namespace BTZen

/-- Exceptions of the btzen code base and of the Python runtime that the
modelled code can raise.  `cancelledError` models `asyncio.CancelledError`
raised with a cause (`raise CancelledError(msg) from ex`); `assertionError`
models a failing `assert`; `nameError n` models Python's NameError on
looking up the undefined variable `n`; `valueError` models e.g.
`bytes([v])` on an out-of-range byte. -/
inductive Err where
  | btzenError (msg : String)
  | callError (msg : String)
  | configurationError (msg : String)
  | dataWriteError
  | dataReadError
  | cancelledError (msg : String) (cause : Err)
  | assertionError
  | nameError (n : String)
  | valueError
  deriving DecidableEq, Repr

/-- True exactly for `asyncio.CancelledError` values. -/
def Err.isCancelled : Err → Bool
  | .cancelledError _ _ => true
  | _ => false

/-- Rough rendering of `str(ex)` used in log messages. -/
def Err.str : Err → String
  | .btzenError m => m
  | .callError m => m
  | .configurationError m => m
  | .dataWriteError => "DataWriteError"
  | .dataReadError => "DataReadError"
  | .cancelledError m _ => m
  | .assertionError => "AssertionError"
  | .nameError n => "name " ++ n ++ " is not defined"
  | .valueError => "ValueError"

/-- Observable external effects of the modelled operations. -/
inductive Action where
  | writeChr (path : String) (data : List Nat)
  | readData (path : String)
  | gattStart (path : String)
  | gattStop (path : String)
  | cancelDevice (mac : String) (devId : Nat) (msg : String)
  | cancelConnection (mac : String) (msg : String)
  | logInfo (msg : String)
  | logWarning (msg : String)
  | logCritical (msg : String)
  deriving DecidableEq, Repr

/-- Effects that touch the device (as opposed to log lines and
task-cancellation bookkeeping). -/
def Action.isDeviceEffect : Action → Bool
  | .writeChr _ _ => true
  | .readData _ => true
  | .gattStart _ => true
  | .gattStop _ => true
  | _ => false

/-- An `asyncio` task handle as far as the session layer observes it:
whether cancellation was requested and with which message. -/
structure OpTask where
  cancelRequested : Bool
  cancelMsg : Option String
  deriving DecidableEq, Repr

/-- A freshly created task (`asyncio.ensure_future` / `create_task`). -/
def OpTask.fresh : OpTask := { cancelRequested := false, cancelMsg := none }

/-- Models `task.cancel(msg=msg)`. -/
def OpTask.cancel (_t : OpTask) (msg : String) : OpTask :=
  { cancelRequested := true, cancelMsg := some msg }

/-- How a finished `asyncio` task ended. -/
inductive Outcome where
  | success
  | cancelled
  | error (e : Err)
  deriving DecidableEq, Repr

/-- A `DeviceRegistration` key: its MAC plus an id distinguishing
registrations that share a MAC. -/
structure DeviceRegistration where
  mac : String
  devId : Nat
  deriving DecidableEq, Repr

/-- Lookup in an association list (a Python dict, insertion-ordered). -/
def lookupAssoc {α β : Type} [DecidableEq α] : List (α × β) → α → Option β
  | [], _ => none
  | p :: t, k => if p.1 = k then some p.2 else lookupAssoc t k

/-- Python dict assignment `d[k] = v`: replace the (unique) existing
entry in place, else append at the end. -/
def insertAssoc {α β : Type} [DecidableEq α] :
    List (α × β) → α → β → List (α × β)
  | [], k, v => [(k, v)]
  | p :: t, k, v => if p.1 = k then (k, v) :: t else p :: insertAssoc t k v

/-- The keys of an association list are pairwise distinct (the dict
invariant). -/
def keysNodup {α β : Type} (l : List (α × β)) : Prop :=
  (l.map Prod.fst).Nodup

/-- Number of entries stored under key `k`. -/
def countKey {α β : Type} [DecidableEq α] : List (α × β) → α → Nat
  | [], _ => 0
  | p :: t, k => (if p.1 = k then 1 else 0) + countKey t k

/-- The `Session` state of `src/btzen/session.py`: the active flag, the
dict of per-registration in-flight operation tasks, the dict of
per-address connection tasks, the dict of per-address connection events
(`asyncio.Event`, modelled by its set/clear Bool), and the session exit
event. -/
structure Session where
  is_active : Bool
  device_task : List (DeviceRegistration × OpTask)
  connection_task : List (String × OpTask)
  connection_status : List (String × Bool)
  event_set : Bool
  deriving DecidableEq, Repr

/-- A session as `Session.__init__` leaves it. -/
def Session.init : Session :=
  { is_active := false, device_task := [], connection_task := [],
    connection_status := [], event_set := false }

/-- `Session.start`: the body is exactly `self._is_active = True`; it
performs no state check and cannot raise. -/
def Session.start (s : Session) : Session :=
  { s with is_active := true }

/-- `Session.is_active`. -/
def Session.isActive (s : Session) : Bool := s.is_active

/-- `Session.create_future(device, f)`: asserts the session is active,
wraps the coroutine in a fresh task, stores it under `device` in the
in-flight dict (plain dict assignment: replaces a previous entry, cancels
nothing) and returns the task.  The empty `Action` list records that no
cancellation (nor any other effect) is issued. -/
def Session.create_future (s : Session) (device : DeviceRegistration) :
    Except Err (Session × OpTask × List Action) :=
  if s.is_active then
    .ok ({ s with device_task := insertAssoc s.device_task device OpTask.fresh },
         OpTask.fresh, [])
  else
    .error .assertionError

/-- `Session.add_connection_task(mac, f)`: asserts the session is NOT
active, creates the address's connection event (cleared), creates the
task (its done-callback is `Session.stopOnDone` below) and stores it. -/
def Session.add_connection_task (s : Session) (mac : String) :
    Except Err (Session × OpTask) :=
  if s.is_active then
    .error .assertionError
  else
    .ok ({ s with
            connection_status := insertAssoc s.connection_status mac false,
            connection_task := insertAssoc s.connection_task mac OpTask.fresh },
         OpTask.fresh)

/-- The message used by `Session.stop` to cancel every task. -/
def sessionStopMsg : String := "BTZen session stopped"

/-- `Session.stop`: clears the active flag, then cancels every in-flight
device task and every connection task with the session-level message, and
logs. -/
def Session.stop (s : Session) : Session × List Action :=
  ({ s with
      is_active := false,
      device_task :=
        s.device_task.map (fun p => (p.1, p.2.cancel sessionStopMsg)),
      connection_task :=
        s.connection_task.map (fun p => (p.1, p.2.cancel sessionStopMsg)) },
   s.device_task.map (fun p => Action.cancelDevice p.1.mac p.1.devId sessionStopMsg)
     ++ s.connection_task.map (fun p => Action.cancelConnection p.1 sessionStopMsg)
     ++ [Action.logInfo "session is done"])

/-- `Session._stop(task)`, the done-callback registered on every
connection task by `add_connection_task`: if the task finished with an
exception (done, not cancelled, `task.exception()` non-None) the whole
session is stopped, the error logged at critical level and the session
exit event set; a task that completed cleanly or was cancelled triggers
nothing. -/
def Session.stopOnDone (s : Session) (outcome : Outcome) :
    Session × List Action :=
  match outcome with
  | .error _ =>
      let r := s.stop
      ({ r.1 with event_set := true },
       r.2 ++ [Action.logCritical "Error in connection task"])
  | .success => (s, [])
  | .cancelled => (s, [])

/-- What `Session.wait_connected` does after its checks pass: either the
address's event is already set and the caller proceeds at once, or the
caller is suspended until the event is set. -/
inductive WaitOutcome where
  | proceed
  | suspendUntilSet (mac : String)
  deriving DecidableEq, Repr

/-- `Session.wait_connected(mac)`: asserts the session is active; raises
`BTZenError` when `mac` has no connection-status entry (i.e. no
registered connection task) — before any `await`, so no suspension
happens; otherwise awaits the event. -/
def Session.wait_connected (s : Session) (mac : String) :
    Except Err WaitOutcome :=
  if s.is_active then
    match lookupAssoc s.connection_status mac with
    | none =>
        .error (.btzenError
          ("Device with address " ++ mac ++
            " not managed by BTZen connection manager"))
    | some isSet =>
        .ok (if isSet then .proceed else .suspendUntilSet mac)
  else
    .error .assertionError

/-- Python `int(q)` on a rational: truncation toward zero. -/
def pyInt (q : ℚ) : ℤ :=
  if q < 0 then ⌈q⌉ else ⌊q⌋

/-- The `Parameters` namedtuple of `src/btzen/sensor.py`: resolved
characteristic paths and configuration payloads.  `path_period` and the
payloads are optional exactly as in the source (`None` for sensors
without them); payload bytes are lists of byte values. -/
structure Parameters where
  name : String
  path_data : String
  path_conf : String
  path_period : Option String
  config_on : Option (List Nat)
  config_on_notify : Option (List Nat)
  config_off : Option (List Nat)
  deriving DecidableEq, Repr

/-- `Sensor.set_interval(interval)` (sensor.py lines 75-86), after the
initial `await self._conn_event.wait()`.  If the sensor has no period
path the body is skipped.  Otherwise `value = int(interval * 100)`
(hundredths of a second); `assert value < 256` raises `AssertionError`
before any write when the value is out of range; `bytes([value])` raises
`ValueError` for a negative value; otherwise the write is issued with
outcome `writeOutcome`.  When the write raises `DataWriteError`, the
`except` block evaluates `'Cannot set sensor interval value: ...'.format(r)`
where `r` is an undefined name, so Python raises `NameError` and the
intended `ConfigurationError` is never constructed; any other exception
from the write propagates unchanged. -/
def Sensor.set_interval (params : Parameters) (interval : ℚ)
    (writeOutcome : Option Err) : List Action × Option Err :=
  match params.path_period with
  | none => ([], none)
  | some path =>
      let value := pyInt (interval * 100)
      if value < 256 then
        if value < 0 then ([], some .valueError)
        else
          match writeOutcome with
          | none => ([Action.writeChr path [value.toNat]], none)
          | some Err.dataWriteError =>
              ([Action.writeChr path [value.toNat]], some (.nameError "r"))
          | some e => ([Action.writeChr path [value.toNat]], some e)
      else
        ([], some .assertionError)

/-- `Sensor.read()` (sensor.py lines 88-102), after the initial
`await self._conn_event.wait()` succeeds.  The whole body sits in a
`try: ... except Exception as ex: raise asyncio.CancelledError('Read error') from ex`
block: one read of the data path is dispatched (`readOutcome` is what the
await produces), the converter is applied to the data, and ANY failure of
either step is re-raised as `asyncio.CancelledError('Read error')` with
the original exception as cause. -/
def Sensor.read (path_data : String) (readOutcome : Except Err (List Nat))
    (converter : List Nat → Except Err Int) :
    List Action × Except Err Int :=
  match readOutcome with
  | .error e =>
      ([Action.readData path_data], .error (.cancelledError "Read error" e))
  | .ok data =>
      match converter data with
      | .error e =>
          ([Action.readData path_data], .error (.cancelledError "Read error" e))
      | .ok v => ([Action.readData path_data], .ok v)

/-- `Sensor._enable()` (sensor.py lines 139-158), after parameters are
set: picks `config_on_notify` when notifying else `config_on`; when
that payload is present writes it to the configuration path (outcome
`writeOutcome`; a raise propagates and aborts the rest); then, when
notifying, arms GATT notifications on the data path; finally logs. -/
def Sensor.enable (mac : String) (params : Parameters) (notifying : Bool)
    (writeOutcome : Option Err) : List Action × Option Err :=
  let config_on := if notifying then params.config_on_notify else params.config_on
  match config_on with
  | some payload =>
      match writeOutcome with
      | some e => ([Action.writeChr params.path_conf payload], some e)
      | none =>
          ([Action.writeChr params.path_conf payload]
             ++ (if notifying then [Action.gattStart params.path_data] else [])
             ++ [Action.logInfo ("enabled device: " ++ mac)], none)
  | none =>
      ((if notifying then [Action.gattStart params.path_data] else [])
         ++ [Action.logInfo ("enabled device: " ++ mac)], none)

/-- What `read` in `src/btzen/fdevice.py` does with a registration:
raised an exception, returned `None` silently, or created the in-flight
future dispatching the transport read for the device. -/
inductive ReadDispatch where
  | raisedErr (e : Err)
  | returnedNone
  | dispatched (mac : String)
  deriving DecidableEq, Repr

/-- `read(device)` (fdevice.py lines 38-50).  `s` is the session at the
call, `sAfterWait` the session when the `await session.wait_connected`
suspension resumes.  If the session is inactive at the call, raises
`CallError`.  Then `wait_connected` may raise (unmanaged address).
After the wait, if the session is no longer active the function RETURNS
(`None`) without creating the future, i.e. without dispatching any
transport read and without raising.  Otherwise the read is dispatched
through `create_future`. -/
def fdevice_read (s : Session) (device : DeviceRegistration)
    (sAfterWait : Session) : ReadDispatch :=
  if s.is_active then
    match s.wait_connected device.mac with
    | .error e => .raisedErr e
    | .ok _ =>
        if sAfterWait.is_active then .dispatched device.mac
        else .returnedNone
  else
    .raisedErr (.callError ("btzen is not running for device " ++ device.mac))

/-- `_read_env_sensing(device, mac)` (fdevice.py lines 57-64): one
transport read of the data path, then the device's convert function —
with no try/except, so a failure of either step propagates unchanged. -/
def read_data_env_sensing (path : String)
    (readOutcome : Except Err (List Nat))
    (convert : List Nat → Except Err Int) : List Action × Except Err Int :=
  match readOutcome with
  | .error e => ([Action.readData path], .error e)
  | .ok data =>
      match convert data with
      | .error e => ([Action.readData path], .error e)
      | .ok v => ([Action.readData path], .ok v)

/-- `_read_dev_notifying(device, mac)` (fdevice.py lines 66-72): awaits
the next notification payload via `bus._gatt_get` on the data path, then
converts — again with no handler around either step, so failures
propagate unchanged. -/
def read_data_dev_notifying (path : String)
    (readOutcome : Except Err (List Nat))
    (convert : List Nat → Except Err Int) : List Action × Except Err Int :=
  match readOutcome with
  | .error e => ([Action.readData path], .error e)
  | .ok data =>
      match convert data with
      | .error e => ([Action.readData path], .error e)
      | .ok v => ([Action.readData path], .ok v)

/-- `read(device)` (fdevice.py lines 38-50) including the dispatched
data read: the same checks as `fdevice_read`, then
`task = session.create_future(device, read_data(...))` and
`return (await task)` — the awaited task's actions and outcome (`rd`)
reach the caller with no try/except around the await, so a raise
propagates unchanged and a value is returned as is.  The
silent-deactivation case returns `None` without dispatching. -/
def fdevice_read_run (s : Session) (d : DeviceRegistration)
    (sAfterWait : Session) (rd : List Action × Except Err Int) :
    List Action × Except Err (Option Int) :=
  if s.is_active then
    match s.wait_connected d.mac with
    | .error e => ([], .error e)
    | .ok _ =>
        if sAfterWait.is_active then
          (rd.1, match rd.2 with
            | .error e => .error e
            | .ok v => .ok (some v))
        else ([], .ok none)
  else
    ([], .error (.callError ("btzen is not running for device " ++ d.mac)))

/-- `write_config(mac, uuid_conf, data)` (fdevice.py lines 116-121):
one write of `data` to the configuration path, with the given outcome. -/
def write_config (pathConf : String) (data : List Nat)
    (writeOutcome : Option Err) : List Action × Option Err :=
  ([Action.writeChr pathConf data], writeOutcome)

/-- `disarm(msg, warn, f, *args)` (fdevice.py lines 124-129): runs the
call (its actions `callActs`, its outcome `callOutcome`); on success logs
`msg`, on ANY exception — `CancelledError` included — logs the warning
and swallows the exception.  It never raises. -/
def disarm (msg warn : String) (callActs : List Action)
    (callOutcome : Option Err) : List Action × Option Err :=
  match callOutcome with
  | none => (callActs ++ [Action.logInfo msg], none)
  | some e => (callActs ++ [Action.logWarning (warn ++ ": " ++ e.str)], none)

/-- `disarm_async` (fdevice.py lines 131-136): identical to `disarm`
except that the wrapped call is awaited. -/
def disarm_async (msg warn : String) (callActs : List Action)
    (callOutcome : Option Err) : List Action × Option Err :=
  match callOutcome with
  | none => (callActs ++ [Action.logInfo msg], none)
  | some e => (callActs ++ [Action.logWarning (warn ++ ": " ++ e.str)], none)

/-- `_enable_env_sensing(device, mac)` (fdevice.py lines 82-84): one
config write of the device's on payload. -/
def enable_env_sensing (pathConf : String) (config_on : List Nat)
    (writeOutcome : Option Err) : List Action × Option Err :=
  write_config pathConf config_on writeOutcome

/-- `_enable_dev_notifying(device, mac)` (fdevice.py lines 86-93):
`await enable(dev, mac)` — the config-on write; only if it did not raise,
`bus._gatt_start(path_data)` arms notification delivery, then logs. -/
def enable_dev_notifying (pathConf pathData : String) (config_on : List Nat)
    (writeOutcome : Option Err) : List Action × Option Err :=
  let r := enable_env_sensing pathConf config_on writeOutcome
  match r.2 with
  | some e => (r.1, some e)
  | none =>
      (r.1 ++ [Action.gattStart pathData,
               Action.logInfo ("notifications enabled for " ++ pathData)],
       none)

/-- `_disable_env_sensing(device, mac)` (fdevice.py lines 95-101): the
config-off write wrapped in `disarm_async`, so its failure is logged and
swallowed. -/
def disable_env_sensing (mac devStr pathConf : String) (config_off : List Nat)
    (writeOutcome : Option Err) : List Action × Option Err :=
  disarm_async
    ("device " ++ mac ++ "/" ++ devStr ++ " disabled")
    ("cannot disable device " ++ mac ++ "/" ++ devStr)
    [Action.writeChr pathConf config_off] writeOutcome

/-- `_disable_dev_notifying(device, mac)` (fdevice.py lines 103-114):
first `bus._gatt_stop(path_data)` wrapped in `disarm` (failure logged and
swallowed), then `await disable(dev, mac)` — the config-off write wrapped
in `disarm_async`.  A raise from the first step would abort the second,
but `disarm` never raises. -/
def disable_dev_notifying (mac devStr pathData pathConf : String)
    (config_off : List Nat) (gattStopOutcome writeOutcome : Option Err) :
    List Action × Option Err :=
  let r1 := disarm
    ("notifications for " ++ mac ++ "/" ++ devStr ++ " are disabled")
    ("cannot disable notifications for " ++ mac ++ "/" ++ devStr)
    [Action.gattStop pathData] gattStopOutcome
  match r1.2 with
  | some e => (r1.1, some e)
  | none =>
      let r2 := disable_env_sensing mac devStr pathConf config_off writeOutcome
      (r1.1 ++ r2.1, r2.2)

/-- Storing under `k` makes `k` map to the new value. -/
theorem lookupAssoc_insertAssoc_self {α β : Type} [DecidableEq α]
    (l : List (α × β)) (k : α) (v : β) :
    lookupAssoc (insertAssoc l k v) k = some v := by
  induction l with
  | nil => simp [insertAssoc, lookupAssoc]
  | cons p t ih =>
      by_cases h : p.1 = k
      · simp [insertAssoc, h, lookupAssoc]
      · simp [insertAssoc, h, lookupAssoc, ih]

/-- Storing under `k` leaves every other key's binding unchanged. -/
theorem lookupAssoc_insertAssoc_ne {α β : Type} [DecidableEq α]
    (l : List (α × β)) (k k2 : α) (v : β) (hne : k2 ≠ k) :
    lookupAssoc (insertAssoc l k v) k2 = lookupAssoc l k2 := by
  have hkk2 : ¬ k = k2 := fun h => hne h.symm
  induction l with
  | nil => simp [insertAssoc, lookupAssoc, hkk2]
  | cons p t ih =>
      by_cases h : p.1 = k
      · have h2 : ¬ p.1 = k2 := fun hh => hne (hh.symm.trans h)
        simp [insertAssoc, h, lookupAssoc, hkk2, h2]
      · by_cases h2 : p.1 = k2
        · simp [insertAssoc, h, lookupAssoc, h2, hne]
        · simp [insertAssoc, h, lookupAssoc, h2, ih]

/-- A key present in the store after an insertion was present before or
is the inserted key. -/
theorem mem_keys_insertAssoc {α β : Type} [DecidableEq α]
    (l : List (α × β)) (k a : α) (v : β)
    (h : a ∈ (insertAssoc l k v).map Prod.fst) :
    a ∈ l.map Prod.fst ∨ a = k := by
  induction l with
  | nil =>
      simp only [insertAssoc, List.map_cons, List.map_nil,
        List.mem_singleton] at h
      exact Or.inr h
  | cons p t ih =>
      by_cases hk : p.1 = k
      · simp only [insertAssoc, if_pos hk, List.map_cons,
          List.mem_cons] at h
        rcases h with h | h
        · exact Or.inr h
        · exact Or.inl (List.mem_cons_of_mem _ h)
      · simp only [insertAssoc, if_neg hk, List.map_cons,
          List.mem_cons] at h
        rcases h with h | h
        · exact Or.inl (List.mem_cons.mpr (Or.inl h))
        · rcases ih h with h2 | h2
          · exact Or.inl (List.mem_cons_of_mem _ h2)
          · exact Or.inr h2

/-- Dict assignment preserves distinctness of the stored keys. -/
theorem keysNodup_insertAssoc {α β : Type} [DecidableEq α]
    (l : List (α × β)) (k : α) (v : β) (h : keysNodup l) :
    keysNodup (insertAssoc l k v) := by
  induction l with
  | nil => simp [insertAssoc, keysNodup]
  | cons p t ih =>
      unfold keysNodup at h ⊢
      simp only [List.map_cons, List.nodup_cons] at h
      by_cases hk : p.1 = k
      · simp only [insertAssoc, if_pos hk, List.map_cons, List.nodup_cons]
        exact ⟨hk ▸ h.1, h.2⟩
      · have ht := ih h.2
        unfold keysNodup at ht
        simp only [insertAssoc, if_neg hk, List.map_cons, List.nodup_cons]
        refine ⟨fun hmem => ?_, ht⟩
        rcases mem_keys_insertAssoc t k p.1 v hmem with h2 | h2
        · exact h.1 h2
        · exact hk h2

/-- A key absent from the store has no entry. -/
theorem countKey_eq_zero {α β : Type} [DecidableEq α]
    (l : List (α × β)) (k : α) (h : k ∉ l.map Prod.fst) :
    countKey l k = 0 := by
  induction l with
  | nil => rfl
  | cons p t ih =>
      simp only [List.map_cons, List.mem_cons, not_or] at h
      have hne : p.1 ≠ k := fun hk => h.1 hk.symm
      simp [countKey, hne, ih h.2]

/-- With distinct keys, at most one entry is stored per key. -/
theorem countKey_le_one {α β : Type} [DecidableEq α]
    (l : List (α × β)) (k : α) (h : keysNodup l) :
    countKey l k ≤ 1 := by
  induction l with
  | nil => exact Nat.zero_le 1
  | cons p t ih =>
      unfold keysNodup at h
      simp only [List.map_cons, List.nodup_cons] at h
      by_cases hk : p.1 = k
      · have : countKey t k = 0 := countKey_eq_zero t k (hk ▸ h.1)
        simp [countKey, hk, this]
      · simpa [countKey, hk] using ih h.2

/-- C1: evaluation of `Sensor.set_interval` at the failing inputs.  The
claim says an out-of-range interval fails with `ConfigurationError`
issuing no write, and a failing write is wrapped in `ConfigurationError`.
The code converts with the documented scale factor (third conjunct:
interval 1/4 s is written as the byte 25, hundredths of a second) and
issues no write when the value exceeds 255 — but the out-of-range failure
is a bare `AssertionError` (second conjunct), and a write failing with
`DataWriteError` surfaces as `NameError` for the undefined variable `r`
used in the message format of the `except` block (first conjunct), not as
the intended `ConfigurationError`. -/
theorem C1_set_interval_bug :
    Sensor.set_interval
        ⟨"Temperature", "d", "c", some "p", some [1], some [1], some [0]⟩
        1 (some .dataWriteError)
      = ([Action.writeChr "p" [100]], some (.nameError "r"))
    ∧ Sensor.set_interval
        ⟨"Temperature", "d", "c", some "p", some [1], some [1], some [0]⟩
        3 none
      = ([], some .assertionError)
    ∧ Sensor.set_interval
        ⟨"Temperature", "d", "c", some "p", some [1], some [1], some [0]⟩
        (1 / 4) none
      = ([Action.writeChr "p" [25]], none) := by
  refine ⟨?_, ?_, ?_⟩ <;> norm_num [Sensor.set_interval, pyInt] <;> rfl

/-- C2 counterexample: on a transport failure `Sensor.read` raises
`asyncio.CancelledError('Read error')` — a cancellation exception type —
and not the typed `DataReadError` (the spec's `ReadError`), refuting the
claim at a concrete input. -/
theorem C2_read_counterexample :
    (Sensor.read "d" (.error .dataWriteError) (fun _ => .ok 0)).2
        = .error (.cancelledError "Read error" .dataWriteError)
    ∧ Err.isCancelled (.cancelledError "Read error" .dataWriteError) = true
    ∧ Err.cancelledError "Read error" .dataWriteError ≠ Err.dataReadError :=
  ⟨rfl, rfl, fun h => Err.noConfusion h⟩

/-- C2 (amended): a transport-read or decode failure never surfaces as a
typed `ReadError`, and is not retried (exactly one read is dispatched in
every conjunct): `Sensor.read` (sensor.py) re-raises the failure as
`asyncio.CancelledError('Read error')` wrapping it as its cause, while
the fdevice.py path propagates it to the caller unchanged — both
`read_data` variants have no handler, and `read` awaits the dispatched
task bare, so the last conjunct shows the full `read` pipeline (active
managing session, still active after the connection wait) returning the
task's failure as is. -/
theorem C2_read_amended (path : String) (e e2 : Err) (data : List Nat)
    (conv : List Nat → Except Err Int)
    (dt : List (DeviceRegistration × OpTask)) (ct : List (String × OpTask))
    (connSet ev : Bool) (mac : String) (i : Nat) (sA : Session)
    (acts : List Action) :
    Sensor.read path (.error e) conv
      = ([Action.readData path], .error (.cancelledError "Read error" e))
    ∧ Sensor.read path (.ok data) (fun _ => .error e2)
      = ([Action.readData path], .error (.cancelledError "Read error" e2))
    ∧ read_data_env_sensing path (.error e) conv
      = ([Action.readData path], .error e)
    ∧ read_data_env_sensing path (.ok data) (fun _ => .error e2)
      = ([Action.readData path], .error e2)
    ∧ read_data_dev_notifying path (.error e) conv
      = ([Action.readData path], .error e)
    ∧ read_data_dev_notifying path (.ok data) (fun _ => .error e2)
      = ([Action.readData path], .error e2)
    ∧ fdevice_read_run
        { is_active := true, device_task := dt, connection_task := ct,
          connection_status := [(mac, connSet)], event_set := ev }
        ⟨mac, i⟩ sA.start (acts, .error e)
      = (acts, .error e) := by
  refine ⟨rfl, rfl, rfl, rfl, rfl, rfl, ?_⟩
  simp [fdevice_read_run, Session.wait_connected, Session.start, lookupAssoc]

/-- C3 counterexample: `Session.start` is a single unconditional flag
assignment; calling it twice raises nothing (in the embedding it is a
total function) — the second call is a no-op returning the same active
session, refuting the claimed `IllegalStateError`. -/
theorem C3_double_start_counterexample :
    Session.init.start.start = Session.init.start
    ∧ Session.init.isActive = false
    ∧ (Session.init.start).isActive = true :=
  ⟨rfl, rfl, rfl⟩

/-- C3 (amended): `start()` transitions the session to active; a second
call is a harmless no-op (the flag is already set) and no error is
raised — the code performs no double-start check. -/
theorem C3_start_amended (s : Session) :
    (s.start).isActive = true ∧ s.start.start = s.start :=
  ⟨rfl, rfl⟩

/-- C4 counterexample: the inactive state after `stop()` is not
permanent — a subsequent `start()` makes the stopped session active
again, refuting the claim that a stopped session cannot become active by
any subsequent operation. -/
theorem C4_restart_counterexample :
    ((Session.init.start).stop).1.isActive = false
    ∧ (((Session.init.start).stop).1.start).isActive = true :=
  ⟨rfl, rfl⟩

/-- C4 (amended): `stop()` is idempotent on the session state, cancels
every in-flight device operation and every connection task with the
session-level reason `'BTZen session stopped'`, and flips the session
inactive — but not permanently: `start()` would re-activate it. -/
theorem C4_stop_amended (s : Session) :
    ((s.stop).1.stop).1 = (s.stop).1
    ∧ (s.stop).1.isActive = false
    ∧ (s.stop).1.device_task
        = s.device_task.map (fun p => (p.1, p.2.cancel sessionStopMsg))
    ∧ (s.stop).1.connection_task
        = s.connection_task.map (fun p => (p.1, p.2.cancel sessionStopMsg)) := by
  refine ⟨?_, rfl, rfl, rfl⟩
  simp [Session.stop, OpTask.cancel, List.map_map, Function.comp]

/-- C5: the done-callback installed on every connection task stops the
whole session exactly when the task finished with an unhandled error:
afterwards `is_active` is false and every device's in-flight operation
(and every connection task) has received cancellation with the
session-level reason; a task that completed cleanly or was cancelled
changes nothing — so the callback never auto-stops in any other case. -/
theorem C5_conn_failure_auto_stop (s : Session) (e : Err) :
    (s.stopOnDone (.error e)).1.isActive = false
    ∧ (s.stopOnDone (.error e)).1.device_task
        = s.device_task.map (fun p => (p.1, p.2.cancel sessionStopMsg))
    ∧ (s.stopOnDone (.error e)).1.connection_task
        = s.connection_task.map (fun p => (p.1, p.2.cancel sessionStopMsg))
    ∧ s.stopOnDone .success = (s, [])
    ∧ s.stopOnDone .cancelled = (s, []) :=
  ⟨rfl, rfl, rfl, rfl, rfl⟩

/-- C6: for every outcome of the two teardown sub-steps, `disable` of a
notifying device produces exactly this trace: the notification-disarm
attempt first, followed by its log line — an info line on success, a
warning naming the failure when that sub-step failed — then the
config-off write attempt with its own success/failure log line.  A
failing sub-step is thus logged and does not prevent the remaining
sub-step, and the call never raises.  Likewise the plain-characteristic
`disable` always attempts the off write, logs its success or failure,
and never raises. -/
theorem C6_disable_best_effort (mac devStr pathData pathConf : String)
    (off : List Nat) (o1 o2 : Option Err) :
    (disable_dev_notifying mac devStr pathData pathConf off o1 o2).2 = none
    ∧ (disable_dev_notifying mac devStr pathData pathConf off o1 o2).1
      = [Action.gattStop pathData,
          (match o1 with
           | none => Action.logInfo ("notifications for " ++ mac ++ "/"
               ++ devStr ++ " are disabled")
           | some e => Action.logWarning ("cannot disable notifications for "
               ++ mac ++ "/" ++ devStr ++ ": " ++ e.str)),
         Action.writeChr pathConf off,
          (match o2 with
           | none => Action.logInfo ("device " ++ mac ++ "/" ++ devStr
               ++ " disabled")
           | some e => Action.logWarning ("cannot disable device " ++ mac
               ++ "/" ++ devStr ++ ": " ++ e.str))]
    ∧ (disable_env_sensing mac devStr pathConf off o2).2 = none
    ∧ (disable_env_sensing mac devStr pathConf off o2).1
      = [Action.writeChr pathConf off,
          (match o2 with
           | none => Action.logInfo ("device " ++ mac ++ "/" ++ devStr
               ++ " disabled")
           | some e => Action.logWarning ("cannot disable device " ++ mac
               ++ "/" ++ devStr ++ ": " ++ e.str))] := by
  cases o1 <;> cases o2 <;> exact ⟨rfl, rfl, rfl, rfl⟩

/-- C7: on an active session, `wait_connected` on an address with no
registered connection task (no connection-status entry) raises
`BTZenError` (the spec's `UnmanagedDeviceError`) — it returns the error
outright, performing no suspension — while on a registered address it
suspends the caller until the address's connection event is set (and
proceeds at once when it already is). -/
theorem C7_wait_connected_spec (s : Session) (mac : String)
    (hact : s.is_active = true) :
    (lookupAssoc s.connection_status mac = none →
      s.wait_connected mac
        = .error (.btzenError ("Device with address " ++ mac
            ++ " not managed by BTZen connection manager")))
    ∧ (∀ b, lookupAssoc s.connection_status mac = some b →
      s.wait_connected mac
        = .ok (if b then .proceed else .suspendUntilSet mac)) := by
  constructor
  · intro h; simp [Session.wait_connected, hact, h]
  · intro b h; simp [Session.wait_connected, hact, h]

/-- C7 witness: concrete instances — an unmanaged address fails with the
`BTZenError`, a managed not-yet-connected address suspends. -/
theorem C7_wait_connected_witness :
    (Session.init.start).is_active = true
    ∧ lookupAssoc (Session.init.start).connection_status "AA" = none
    ∧ (Session.init.start).wait_connected "AA"
        = .error (.btzenError ("Device with address " ++ "AA"
            ++ " not managed by BTZen connection manager"))
    ∧ ({ Session.init.start with
          connection_status := [("AB", false)] } : Session).wait_connected "AB"
        = .ok (.suspendUntilSet "AB") := by
  refine ⟨rfl, rfl, ?_, ?_⟩
  · exact (C7_wait_connected_spec Session.init.start "AA" rfl).1 rfl
  · exact (C7_wait_connected_spec
      { Session.init.start with connection_status := [("AB", false)] }
      "AB" rfl).2 false rfl

/-- C8: enabling a notifying device writes the notify-flavored on
payload (`config_on_notify`) to the configuration path and arms GATT
notification delivery on the data path strictly afterwards; when the
config write raises, notification delivery is never armed and the error
propagates.  Shown both for `Sensor._enable` in sensor.py and for
`_enable_dev_notifying` in fdevice.py. -/
theorem C8_enable_config_before_subscribe (mac nm pd pc : String)
    (pp : Option String) (co coff : Option (List Nat)) (payload : List Nat)
    (conf data : String) (on2 : List Nat) :
    (Sensor.enable mac ⟨nm, pd, pc, pp, co, some payload, coff⟩ true
        none).1.filter Action.isDeviceEffect
      = [Action.writeChr pc payload, Action.gattStart pd]
    ∧ (∀ e, Sensor.enable mac ⟨nm, pd, pc, pp, co, some payload, coff⟩ true
        (some e)
      = ([Action.writeChr pc payload], some e))
    ∧ (enable_dev_notifying conf data on2 none).1.filter Action.isDeviceEffect
      = [Action.writeChr conf on2, Action.gattStart data]
    ∧ (∀ e, enable_dev_notifying conf data on2 (some e)
      = ([Action.writeChr conf on2], some e)) :=
  ⟨rfl, fun _ => rfl, rfl, fun _ => rfl⟩

/-- C9: on an active session with the dict invariant, `create_future`
stores the new task as the sole in-flight entry for the registration —
afterwards the registration maps to the new task, the keys stay
distinct, every key holds at most one entry, other registrations'
entries are untouched — and it returns the new task handle while
emitting no action at all (in particular no cancellation of the replaced
handle). -/
theorem C9_single_inflight_handle (s : Session) (d : DeviceRegistration)
    (hact : s.is_active = true) (hnd : keysNodup s.device_task) :
    ∃ s2 : Session,
      s.create_future d = .ok (s2, OpTask.fresh, [])
      ∧ lookupAssoc s2.device_task d = some OpTask.fresh
      ∧ keysNodup s2.device_task
      ∧ (∀ k, countKey s2.device_task k ≤ 1)
      ∧ (∀ d2, d2 ≠ d →
          lookupAssoc s2.device_task d2 = lookupAssoc s.device_task d2) := by
  refine ⟨{ s with device_task := insertAssoc s.device_task d OpTask.fresh },
    ?_, ?_, ?_, ?_, ?_⟩
  · simp [Session.create_future, hact]
  · exact lookupAssoc_insertAssoc_self s.device_task d OpTask.fresh
  · exact keysNodup_insertAssoc s.device_task d OpTask.fresh hnd
  · intro k
    exact countKey_le_one _ k
      (keysNodup_insertAssoc s.device_task d OpTask.fresh hnd)
  · intro d2 hne
    exact lookupAssoc_insertAssoc_ne s.device_task d d2 OpTask.fresh hne

/-- Concrete active session with one stored in-flight task, for the C9
witness. -/
def c9session : Session :=
  { is_active := true,
    device_task := [(⟨"AA", 0⟩, OpTask.fresh)],
    connection_task := [], connection_status := [("AA", true)],
    event_set := false }

/-- C9 witness: the hypotheses hold for `c9session` and the conclusion
follows — replacing the recorded handle for an already-stored
registration. -/
theorem C9_single_inflight_handle_witness :
    c9session.is_active = true
    ∧ keysNodup c9session.device_task
    ∧ (∃ s2 : Session,
        c9session.create_future ⟨"AA", 0⟩ = .ok (s2, OpTask.fresh, [])
        ∧ lookupAssoc s2.device_task ⟨"AA", 0⟩ = some OpTask.fresh
        ∧ keysNodup s2.device_task
        ∧ (∀ k, countKey s2.device_task k ≤ 1)
        ∧ (∀ d2, d2 ≠ (⟨"AA", 0⟩ : DeviceRegistration) →
            lookupAssoc s2.device_task d2
              = lookupAssoc c9session.device_task d2)) :=
  ⟨rfl, by simp [keysNodup, c9session],
    C9_single_inflight_handle c9session ⟨"AA", 0⟩ rfl
      (by simp [keysNodup, c9session])⟩

/-- C10: when the session is active at the call and the address is
managed, but the session has become inactive by the time the
`wait_connected` suspension resumes, `read` (fdevice.py) returns `None`:
no transport read is dispatched and nothing is raised; whereas a `read`
issued while the session is already inactive raises the typed
`CallError`. -/
theorem C10_read_session_deactivated (s sAfter : Session)
    (d : DeviceRegistration) (b : Bool)
    (hact : s.is_active = true)
    (hm : lookupAssoc s.connection_status d.mac = some b)
    (hin : sAfter.is_active = false) :
    fdevice_read s d sAfter = .returnedNone
    ∧ (∀ s2 : Session, s2.is_active = false →
        fdevice_read s2 d sAfter
          = .raisedErr (.callError
              ("btzen is not running for device " ++ d.mac))) := by
  constructor
  · simp [fdevice_read, hact, Session.wait_connected, hm, hin]
  · intro s2 h2; simp [fdevice_read, h2]

/-- Concrete active session managing address AA, for the C10 witness. -/
def c10session : Session :=
  { is_active := true, device_task := [], connection_task := [],
    connection_status := [("AA", true)], event_set := false }

/-- C10 witness: the hypotheses hold for `c10session` (active, AA
managed) and `Session.init` (inactive), and both behaviours follow. -/
theorem C10_read_session_deactivated_witness :
    c10session.is_active = true
    ∧ lookupAssoc c10session.connection_status "AA" = some true
    ∧ Session.init.is_active = false
    ∧ fdevice_read c10session ⟨"AA", 0⟩ Session.init = .returnedNone
    ∧ fdevice_read Session.init ⟨"AA", 0⟩ Session.init
        = .raisedErr (.callError
            ("btzen is not running for device " ++ "AA")) := by
  have h := C10_read_session_deactivated c10session Session.init
    ⟨"AA", 0⟩ true rfl rfl rfl
  exact ⟨rfl, rfl, rfl, h.1, h.2 Session.init rfl⟩

end BTZen
